import Mathlib

/-!
Verification of the ambient-weather-client historical-data client (package awn,
src/client.go together with src/data_structures.go and src/errors.go).

The Go code is shallowly embedded: machine integers (int64 epoch milliseconds)
are modelled as Int, strings as Lean String, slices as List, and the network
transport as an explicit oracle parameter. Calls to log.Fatalf, which terminate
the process, are modelled by a dedicated outcome constructor. The wall clock
(time.Now().UnixMilli()) is modelled as an explicit parameter that is constant
over one pagination run.
-/

namespace Awn

/-- Error kinds of the client, from the var block of src/client.go (lines 57-85)
and the errorType taxonomy of src/errors.go. The extra constructors model
errors produced by collaborators: a transport-level failure surfaced by resty,
and the *time.ParseError returned by Go's time.Parse. -/
inductive AwnError
  | contextTimeoutExceeded
  | malformedDate
  | regexFailed
  | apiKeyMissing
  | appKeyMissing
  | invalidDateFormat
  | macAddressMissing
  | transportFailure
  | timeParseError
deriving Repr, DecidableEq

/-- epochIncrement24h (src/client.go:42): the number of milliseconds in a
24-hour period. -/
def epochIncrement24h : Int := 86400000

/-- FunctionData (src/data_structures.go:13-19): API key, application key,
epoch cursor in milliseconds, record limit, device MAC address. -/
structure FunctionData where
  API : String
  App : String
  Epoch : Int
  Limit : Int
  Mac : String
deriving Repr, DecidableEq

/-- NewFunctionData (src/data_structures.go:30-38): the default FunctionData. -/
def NewFunctionData : FunctionData :=
  { API := "", App := "", Epoch := 0, Limit := 1, Mac := "" }

/-- CreateAPIConfig (src/client.go:175-181): NewFunctionData with the two
credentials filled in. -/
def CreateAPIConfig (api app : String) : FunctionData :=
  { NewFunctionData with API := api, App := app }

/-- CheckReturn (src/client.go:191-207) logs the error at the given level and
returns it unchanged. At the "warning" level used by every call site modelled
here it has no control effect; logging itself is not modelled. -/
def CheckReturn (err : Option AwnError) (_msg : String) (_level : String) :
    Option AwnError :=
  err

/-- YearMonthDay (src/client.go:95): a date string in YYYY-MM-DD format. -/
abbrev YearMonthDay := String

/-- ymdAtHead s is true when s starts with a match of the regular expression
pattern d4-d2-d2 (four digits, dash, two digits, dash, two digits). -/
def ymdAtHead : List Char → Bool
  | y1 :: y2 :: y3 :: y4 :: h1 :: m1 :: m2 :: h2 :: d1 :: d2 :: _ =>
    y1.isDigit && y2.isDigit && y3.isDigit && y4.isDigit && h1 == '-' &&
      m1.isDigit && m2.isDigit && h2 == '-' && d1.isDigit && d2.isDigit
  | _ => false

/-- containsYmd s is true when some position of s starts a match of the
pattern, i.e. the unanchored search semantics of Go's regexp.MatchString. -/
def containsYmd : List Char → Bool
  | [] => false
  | c :: t => ymdAtHead (c :: t) || containsYmd t

/-- YearMonthDay.verify (src/client.go:100-109): regexp.MatchString with the
unanchored pattern d4-d2-d2. MatchString only returns a non-nil error when the
pattern itself fails to compile; the pattern here is a valid constant, so the
ErrRegexFailed branch is unreachable and the result is (match, nil) or, on a
non-match, (false, ErrMalformedDate). -/
def YearMonthDay.verify (y : YearMonthDay) : Bool × Option AwnError :=
  if containsYmd y.data then (true, none) else (false, some AwnError.malformedDate)

/-- digitVal c is the numeric value of a decimal digit character. -/
def digitVal (c : Char) : Nat := c.toNat - 48

/-- isLeapYear, the proleptic Gregorian leap-year rule used by Go's time
package. -/
def isLeapYear (y : Int) : Bool :=
  (y % 4 == 0 && y % 100 != 0) || y % 400 == 0

/-- daysInMonth y m: the number of days of month m in year y, as validated by
Go's time.Parse range check. -/
def daysInMonth (y : Int) (m : Nat) : Nat :=
  if m = 2 then (if isLeapYear y then 29 else 28)
  else if m = 4 ∨ m = 6 ∨ m = 9 ∨ m = 11 then 30
  else 31

/-- parseDateOnly models Go's time.Parse with the time.DateOnly layout
("2006-01-02"): the input must be exactly four digits, a dash, two digits, a
dash and two digits, with no leading or trailing text, and the month and day
must be in range; otherwise time.Parse returns a *time.ParseError. -/
def parseDateOnly (t : String) : Option (Int × Nat × Nat) :=
  match t.data with
  | [y1, y2, y3, y4, h1, m1, m2, h2, d1, d2] =>
    if y1.isDigit && y2.isDigit && y3.isDigit && y4.isDigit && h1 == '-' &&
        m1.isDigit && m2.isDigit && h2 == '-' && d1.isDigit && d2.isDigit then
      let y : Int := (1000 * digitVal y1 + 100 * digitVal y2 + 10 * digitVal y3 +
        digitVal y4 : Nat)
      let m : Nat := 10 * digitVal m1 + digitVal m2
      let d : Nat := 10 * digitVal d1 + digitVal d2
      if 1 ≤ m ∧ m ≤ 12 ∧ 1 ≤ d ∧ d ≤ daysInMonth y m then some (y, m, d)
      else none
    else none
  | _ => none

/-- daysFromCivil y m d: days between 1970-01-01 and the proleptic Gregorian
date y-m-d (the civil-days algorithm, with floor division). This models the
day count underlying Go's time.Date(...).UnixMilli() at UTC midnight. -/
def daysFromCivil (y : Int) (m d : Nat) : Int :=
  let yAdj : Int := if m ≤ 2 then y - 1 else y
  let era : Int := Int.fdiv yAdj 400
  let yoe : Int := yAdj - era * 400
  let mp : Int := if 2 < m then (m : Int) - 3 else (m : Int) + 9
  let doy : Int := Int.fdiv (153 * mp + 2) 5 + (d : Int) - 1
  let doe : Int := yoe * 365 + Int.fdiv yoe 4 - Int.fdiv yoe 100 + doy
  era * 146097 + doe - 719468

/-- goZeroTimeUnixMilli is (time.Time{}).UnixMilli() in Go: January 1 of year 1,
00:00:00 UTC, which time.Parse returns alongside a parse error. -/
def goZeroTimeUnixMilli : Int := daysFromCivil 1 1 1 * 86400000

/-- ConvertOutcome: the observable outcome of ConvertTimeToEpoch. The fatal
constructor models log.Fatalf, which terminates the process instead of
returning to the caller. -/
inductive ConvertOutcome
  | fatal
  | value (epochMilli : Int) (err : Option AwnError)
deriving Repr, DecidableEq

/-- ConvertTimeToEpoch (src/client.go:125-137): verify the shape of the date
string, log a warning on a verify error, call log.Fatalf when the shape check
failed, otherwise parse with the time.DateOnly layout and return the parsed
time's UnixMilli together with the parse error (the Go zero time when the
parse failed). -/
def ConvertTimeToEpoch (t : String) : ConvertOutcome :=
  let v := YearMonthDay.verify t
  let _ := CheckReturn v.2 "unable to verify date" "warning"
  if !v.1 then ConvertOutcome.fatal
  else
    match parseDateOnly t with
    | some ymd =>
      ConvertOutcome.value (daysFromCivil ymd.1 ymd.2.1 ymd.2.2 * 86400000)
        (CheckReturn none "unable to parse time" "warning")
    | none =>
      ConvertOutcome.value goZeroTimeUnixMilli
        (CheckReturn (some AwnError.timeParseError) "unable to parse time" "warning")

/-- FetchEffect: the observable effect of one GET request issued by
getDeviceData through the resty client: the decoded response body, the error
value resty returned (after its internal retries), and whether ctx.Err() is
context.DeadlineExceeded at the check that follows the call. The element type
of the response body (one weather observation of DeviceDataResponse,
src/data_structures.go:42-76) is kept abstract as Rec since no field of a
record is inspected by the client logic. -/
structure FetchEffect (Rec : Type) where
  body : List Rec
  err : Option AwnError
  deadlineExceeded : Bool

/-- Transport: the network collaborator, as an oracle mapping the request
parameters (carried by the FunctionData value at call time) to the effect of
the GET against devices/macAddress. -/
def Transport (Rec : Type) := FunctionData → FetchEffect Rec

/-- deviceQueryParams (src/client.go:299-304): the query parameters set for a
device-scoped fetch; endDate and limit use base-10 formatting. -/
def deviceQueryParams (fd : FunctionData) : List (String × String) :=
  [("apiKey", fd.API), ("applicationKey", fd.App),
   ("endDate", toString fd.Epoch), ("limit", toString fd.Limit)]

/-- getDeviceData (src/client.go:295-324): build the client and parameters,
issue the GET to devices/macAddress unconditionally (no validation of any
field of funcData happens first; the CheckResponse call at line 317 is
commented out), log any error at warning level, then return an empty
DeviceDataResponse with ErrContextTimeoutExceeded when the context deadline
has been exceeded, and otherwise the decoded body together with the transport
error. The second component instruments the model with the list of network
calls performed, recording the FunctionData each request was built from. -/
def getDeviceData {Rec : Type} (tr : Transport Rec) (funcData : FunctionData) :
    (List Rec × Option AwnError) × List FunctionData :=
  let e := tr funcData
  let _ := CheckReturn e.err "unable to handle data from the devices endpoint" "warning"
  if e.deadlineExceeded then
    (([], some AwnError.contextTimeoutExceeded), [funcData])
  else
    ((e.body, e.err), [funcData])

/-- histLoop models the pagination loop shared by GetHistoricalData
(src/client.go:341-348) and GetHistoricalDataAsync (src/client.go:375-382):
for i := funcData.Epoch; i <= now; i += epochIncrement24h, set funcData.Epoch
to i, fetch the window, log any error at warning level and otherwise ignore
it, and append the window's response. It returns the appended responses in
order together with the concatenated network-call log. now stands for
time.Now().UnixMilli(), modelled as constant across the run. -/
def histLoop {Rec : Type} (tr : Transport Rec) (now : Int) (funcData : FunctionData) :
    List (List Rec) × List FunctionData :=
  if h : funcData.Epoch ≤ now then
    let r := getDeviceData tr funcData
    let _ := CheckReturn r.1.2 "unable to get device data" "warning"
    let rest := histLoop tr now { funcData with Epoch := funcData.Epoch + epochIncrement24h }
    (r.1.1 :: rest.1, r.2 ++ rest.2)
  else
    ([], [])
termination_by (now + epochIncrement24h - funcData.Epoch).toNat
decreasing_by simp only [epochIncrement24h]; omega

/-- GetHistoricalData (src/client.go:338-351): run the pagination loop and
return the accumulated responses together with a nil error (the literal
return deviceResponse, nil). The second component is the instrumented
network-call log. -/
def GetHistoricalData {Rec : Type} (tr : Transport Rec) (now : Int)
    (funcData : FunctionData) :
    (List (List Rec) × Option AwnError) × List FunctionData :=
  let p := histLoop tr now funcData
  ((p.1, none), p.2)

/-- Conduit: the out channel of GetHistoricalDataAsync as observed by a
consumer that drains it: the values received in order, and whether the channel
was closed after the last one. -/
structure Conduit (Rec : Type) where
  emitted : List (List Rec)
  closed : Bool

/-- GetHistoricalDataAsync (src/client.go:362-386): a background goroutine
runs the same pagination loop, sending each window's response on out
(out <- resp) whether or not that window's fetch failed, and defer close(out)
closes the channel when the loop finishes. The conduit records the fully
drained stream; the second component is the instrumented network-call log.
The WaitGroup is signalled exactly once by defer w.Done() and is not
modelled. -/
def GetHistoricalDataAsync {Rec : Type} (tr : Transport Rec) (now : Int)
    (funcData : FunctionData) : Conduit Rec × List FunctionData :=
  let p := histLoop tr now funcData
  ({ emitted := p.1, closed := true }, p.2)

/-- GetHistoricalData (src/client.go:338) receives funcData by value: the
parameter type is FunctionData, not *FunctionData, so the callee operates on
a copy and, by Go's call-by-value semantics, the caller's FunctionData
variable after the call holds the same value it held before. -/
def callerFunctionDataAfterGetHistoricalData (funcData : FunctionData) : FunctionData :=
  funcData

/-- windowCount c now: the number of iterations the pagination loop performs
when it starts at epoch c with wall clock now: the values i = c, c + 86400000,
c + 2 * 86400000, ... with i ≤ now. -/
def windowCount (c now : Int) : Nat :=
  if c ≤ now then (now - c).toNat / 86400000 + 1 else 0

/-- specCeilWindowCount is the window-fetch count formula stated by the spec
(testable property list): ceil((now - c) / 86400000), written for the c ≤ now
case it is asserted for. -/
def specCeilWindowCount (c now : Int) : Nat :=
  ((now - c).toNat + 86399999) / 86400000

/-- failTransport: a transport on which every window fetch fails. -/
def failTransport : Transport Unit :=
  fun _ => { body := [], err := some AwnError.transportFailure, deadlineExceeded := false }

/-- okTransport: a transport on which every window fetch succeeds with an
empty response body. -/
def okTransport : Transport Unit :=
  fun _ => { body := [], err := none, deadlineExceeded := false }

/-- failFirstTransport: a transport on which the fetch at epoch 0 fails and
every other fetch succeeds with an empty body. -/
def failFirstTransport : Transport Unit :=
  fun fd =>
    if fd.Epoch = 0 then
      { body := [], err := some AwnError.transportFailure, deadlineExceeded := false }
    else
      { body := [], err := none, deadlineExceeded := false }

/-- Helper: getDeviceData performs exactly one network call, recording the
FunctionData the request was built from, on both the deadline-exceeded and the
normal path. -/
theorem getDeviceData_calls {Rec : Type} (tr : Transport Rec) (fd : FunctionData) :
    (getDeviceData tr fd).2 = [fd] := by
  simp only [getDeviceData]
  split_ifs <;> rfl

/-- Helper: one loop iteration at a checkpoint c ≤ now leaves exactly one more
iteration count than starting one day later. -/
theorem windowCount_succ (c now : Int) (h : c ≤ now) :
    windowCount c now = windowCount (c + epochIncrement24h) now + 1 := by
  simp only [windowCount, epochIncrement24h]
  split_ifs <;> omega

/-- Helper: the network-call log of the pagination loop is the sequence of
FunctionData values with Epoch = start + n * 86400000 for n below the window
count, in order. -/
theorem histLoop_calls {Rec : Type} (tr : Transport Rec) (now : Int) (fd : FunctionData) :
    (histLoop tr now fd).2 =
      (List.range (windowCount fd.Epoch now)).map
        (fun (n : Nat) => { fd with Epoch := fd.Epoch + (n : Int) * epochIncrement24h }) := by
  induction fd using histLoop.induct tr now
  case _ fd h ih =>
    rw [histLoop]
    simp only [dif_pos h, getDeviceData_calls]
    rw [ih]
    rw [windowCount_succ _ _ h, List.range_succ_eq_map]
    simp only [List.map_cons, List.map_map, List.singleton_append, Function.comp_def]
    congr 1
    · simp
    · refine List.map_congr_left ?_
      intro a _
      simp only [FunctionData.mk.injEq, true_and, and_true]
      push_cast
      ring
  case _ fd h =>
    rw [histLoop]
    simp only [dif_neg h]
    simp [windowCount, h]

/-- Helper: the response list accumulated by the pagination loop is the
windowwise getDeviceData response for each logged network call, in order. -/
theorem histLoop_resps {Rec : Type} (tr : Transport Rec) (now : Int) (fd : FunctionData) :
    (histLoop tr now fd).1 =
      ((histLoop tr now fd).2).map (fun f => (getDeviceData tr f).1.1) := by
  induction fd using histLoop.induct tr now
  case _ fd h ih =>
    rw [histLoop]
    simp only [dif_pos h, getDeviceData_calls]
    simp only [List.singleton_append, List.map_cons, ih]
  case _ fd h =>
    rw [histLoop]
    simp only [dif_neg h]
    simp

/-- Helper: closed-form evaluation of the pagination loop, combining
histLoop_calls and histLoop_resps. -/
theorem histLoop_eq {Rec : Type} (tr : Transport Rec) (now : Int) (fd : FunctionData) :
    histLoop tr now fd =
      ((List.range (windowCount fd.Epoch now)).map
        (fun (n : Nat) => (getDeviceData tr
          { fd with Epoch := fd.Epoch + (n : Int) * epochIncrement24h }).1.1),
       (List.range (windowCount fd.Epoch now)).map
        (fun (n : Nat) => { fd with Epoch := fd.Epoch + (n : Int) * epochIncrement24h })) := by
  have h2 := histLoop_calls tr now fd
  have h1 := histLoop_resps tr now fd
  rw [h2, List.map_map] at h1
  exact Prod.ext h1 h2

/-- Claim C1, amended: GetHistoricalData never aborts on a single-window
failure. For every transport behaviour (including failing ones), it returns a
nil error and appends one response per window, so a window failure is neither
surfaced to the caller nor does it suppress the accumulated sequence. -/
theorem getHistoricalData_ignores_window_failures {Rec : Type} (tr : Transport Rec)
    (now : Int) (fd : FunctionData) :
    (GetHistoricalData tr now fd).1.2 = none ∧
    (GetHistoricalData tr now fd).1.1.length = windowCount fd.Epoch now := by
  refine ⟨rfl, ?_⟩
  simp [GetHistoricalData, histLoop_resps, histLoop_calls]

/-- Claim C1, counterexample: on a transport whose single window fetch fails,
GetHistoricalData still returns a nil error and a non-empty response list, so
the failure is not returned and a partial (in fact full-length) result is. -/
theorem getHistoricalData_failure_not_surfaced_cex :
    (getDeviceData failTransport NewFunctionData).1.2 = some AwnError.transportFailure ∧
    (GetHistoricalData failTransport 0 NewFunctionData).1.2 = none ∧
    (GetHistoricalData failTransport 0 NewFunctionData).1.1 ≠ [] := by
  refine ⟨rfl, rfl, ?_⟩
  simp only [GetHistoricalData, histLoop_eq]
  decide

/-- Claim C2, amended: for every start checkpoint c and wall clock now, the
synchronous pagination performs floor((now - c) / 86400000) + 1 window fetches
when c ≤ now and zero when c > now (the windowCount closed form), and it
returns a nil error in all cases; the spec's ceil((now - c) / 86400000)
formula undercounts by one exactly when 86400000 divides now - c. -/
theorem getHistoricalData_window_count {Rec : Type} (tr : Transport Rec)
    (now : Int) (fd : FunctionData) :
    (GetHistoricalData tr now fd).2.length = windowCount fd.Epoch now ∧
    (GetHistoricalData tr now fd).1.2 = none := by
  refine ⟨?_, rfl⟩
  simp [GetHistoricalData, histLoop_calls]

/-- Claim C2, counterexample: with c = now = 0 (so c ≤ now), the loop performs
one window fetch while the spec's ceiling formula yields zero. -/
theorem getHistoricalData_window_count_ceil_cex :
    NewFunctionData.Epoch ≤ 0 ∧
    (GetHistoricalData okTransport 0 NewFunctionData).2.length = 1 ∧
    specCeilWindowCount NewFunctionData.Epoch 0 = 0 := by
  refine ⟨by decide, ?_, by decide⟩
  simp only [GetHistoricalData, histLoop_eq]
  decide

/-- Claim C3, amended: on a per-window failure the background producer of
GetHistoricalDataAsync logs and ignores the error: it still emits that
window's (zero-value) response, keeps fetching every remaining window, and the
conduit is closed only after the loop has visited all windows — for every
transport behaviour the emission count and the fetch count both equal the full
window count, and the conduit ends closed. -/
theorem getHistoricalDataAsync_failure_swallowed {Rec : Type} (tr : Transport Rec)
    (now : Int) (fd : FunctionData) :
    (GetHistoricalDataAsync tr now fd).1.closed = true ∧
    (GetHistoricalDataAsync tr now fd).1.emitted.length = windowCount fd.Epoch now ∧
    (GetHistoricalDataAsync tr now fd).2.length = windowCount fd.Epoch now := by
  refine ⟨rfl, ?_, ?_⟩ <;>
    simp [GetHistoricalDataAsync, histLoop_resps, histLoop_calls]

/-- Claim C3, counterexample: with the first of two windows failing, the
producer still performs the second fetch and emits two elements, so it neither
stops advancing nor truncates the stream at the failed window. -/
theorem getHistoricalDataAsync_failure_continues_cex :
    (getDeviceData failFirstTransport NewFunctionData).1.2 = some AwnError.transportFailure ∧
    (GetHistoricalDataAsync failFirstTransport 86400000 NewFunctionData).2.length = 2 ∧
    (GetHistoricalDataAsync failFirstTransport 86400000 NewFunctionData).1.emitted.length = 2 := by
  refine ⟨rfl, ?_, ?_⟩ <;>
    · simp only [GetHistoricalDataAsync, histLoop_eq]
      decide

/-- Claim C4, amended: the stream emitted by GetHistoricalDataAsync contains
exactly one WindowResponse per attempted window (successful or failed, a
failed window contributing the zero-value response), in strictly increasing
checkpoint order with no reordering, and the channel is closed after the last
element. -/
theorem getHistoricalDataAsync_ordered_emissions {Rec : Type} (tr : Transport Rec)
    (now : Int) (fd : FunctionData) :
    (GetHistoricalDataAsync tr now fd).1.emitted =
      ((GetHistoricalDataAsync tr now fd).2).map (fun f => (getDeviceData tr f).1.1) ∧
    ((GetHistoricalDataAsync tr now fd).2.map FunctionData.Epoch).Pairwise (· < ·) ∧
    (GetHistoricalDataAsync tr now fd).1.closed = true := by
  refine ⟨?_, ?_, rfl⟩
  · simpa [GetHistoricalDataAsync] using histLoop_resps tr now fd
  · simp only [GetHistoricalDataAsync, histLoop_calls, List.map_map]
    rw [List.pairwise_map]
    refine List.pairwise_lt_range _ |>.imp ?_
    intro a b hab
    simp only [Function.comp_def]
    simp only [epochIncrement24h]
    omega

/-- Claim C4, counterexample: with the first of two windows failing, only one
window is successfully fetched yet two WindowResponses are emitted, so the
stream does not contain exactly one element per successfully fetched window. -/
theorem getHistoricalDataAsync_emits_failed_windows_cex :
    ((GetHistoricalDataAsync failFirstTransport 86400000 NewFunctionData).2.filter
        (fun f => ((getDeviceData failFirstTransport f).1.2).isNone)).length = 1 ∧
    (GetHistoricalDataAsync failFirstTransport 86400000 NewFunctionData).1.emitted.length = 2 := by
  constructor <;>
    · simp only [GetHistoricalDataAsync, histLoop_eq]
      decide

/-- Claim C5: ConvertTimeToEpoch on "11-15-2021", "11152021" and
"11-15-2021:12:42" reaches log.Fatalf — terminating the process — instead of
returning the ErrMalformedDate that the shape check produced one line earlier
(and that the repository's own TestConvertTimeToEpochBadFormat expects to be
returned). -/
theorem convertTimeToEpoch_bad_format_fatal :
    ConvertTimeToEpoch "11-15-2021" = ConvertOutcome.fatal ∧
    ConvertTimeToEpoch "11152021" = ConvertOutcome.fatal ∧
    ConvertTimeToEpoch "11-15-2021:12:42" = ConvertOutcome.fatal ∧
    YearMonthDay.verify "11-15-2021" = (false, some AwnError.malformedDate) := by
  decide

/-- Claim C6, amended: getDeviceData performs no validation of empty
credentials or MAC address: even when all three fields are empty it still
issues exactly one network request, and the error it returns is dictated
solely by the context deadline and the transport — never a locally synthesized
MissingCredential or MissingDeviceAddress (the CheckResponse mapping of
remote-reported errors is commented out). -/
theorem getDeviceData_no_empty_field_validation {Rec : Type} (tr : Transport Rec)
    (fd : FunctionData) (hapi : fd.API = "") (happ : fd.App = "") (hmac : fd.Mac = "") :
    (getDeviceData tr fd).2 = [fd] ∧
    (getDeviceData tr fd).1.2 =
      (if (tr fd).deadlineExceeded then some AwnError.contextTimeoutExceeded
       else (tr fd).err) := by
  simp only [getDeviceData]
  split_ifs <;> simp

/-- Claim C6, witness: the amended theorem applied to the default FunctionData
(empty API key, empty application key, empty MAC) on a succeeding transport. -/
theorem getDeviceData_no_empty_field_validation_witness :
    NewFunctionData.API = "" ∧ NewFunctionData.App = "" ∧ NewFunctionData.Mac = "" ∧
    ((getDeviceData okTransport NewFunctionData).2 = [NewFunctionData] ∧
     (getDeviceData okTransport NewFunctionData).1.2 =
       (if (okTransport NewFunctionData).deadlineExceeded then
          some AwnError.contextTimeoutExceeded
        else (okTransport NewFunctionData).err)) :=
  ⟨rfl, rfl, rfl,
    getDeviceData_no_empty_field_validation okTransport NewFunctionData rfl rfl rfl⟩

/-- Claim C6, counterexample: with every credential field and the MAC empty,
the device-scoped fetch still performs its network call (the call log is
non-empty and the query parameters carry the empty strings) and returns no
MissingCredential or MissingDeviceAddress error — here no error at all. -/
theorem getDeviceData_empty_credentials_cex :
    NewFunctionData.API = "" ∧ NewFunctionData.App = "" ∧ NewFunctionData.Mac = "" ∧
    (getDeviceData okTransport NewFunctionData).2 ≠ [] ∧
    (getDeviceData okTransport NewFunctionData).1.2 = none ∧
    ("apiKey", "") ∈ deviceQueryParams NewFunctionData := by
  decide

/-- Claim C7: the n-th window fetch of a pagination run is built from the
initial checkpoint plus n * 86400000 milliseconds, for every transport
behaviour — the cursor cadence is independent of how many records (including
zero) each window returned. -/
theorem getHistoricalData_checkpoint_cadence {Rec : Type} (tr : Transport Rec)
    (now : Int) (fd : FunctionData) :
    (GetHistoricalData tr now fd).2 =
      (List.range (windowCount fd.Epoch now)).map
        (fun (n : Nat) => { fd with Epoch := fd.Epoch + (n : Int) * epochIncrement24h }) := by
  simpa [GetHistoricalData] using histLoop_calls tr now fd

/-- Claim C8: ConvertTimeToEpoch maps "2014-01-01" to 1388534400000 and
"2023-11-15" to 1700006400000 (UTC midnight), with a nil error. -/
theorem convertTimeToEpoch_known_dates :
    ConvertTimeToEpoch "2014-01-01" = ConvertOutcome.value 1388534400000 none ∧
    ConvertTimeToEpoch "2023-11-15" = ConvertOutcome.value 1700006400000 none := by
  decide

/-- Claim C9, amended: the pagination loop advances the Epoch field of its own
copy of FunctionData — the successive network calls carry the advanced cursor
values — but GetHistoricalData receives the structure by value, so the
FunctionData the caller supplied is unchanged after the call. -/
theorem getHistoricalData_mutates_local_copy_only {Rec : Type} (tr : Transport Rec)
    (now : Int) (fd : FunctionData) :
    callerFunctionDataAfterGetHistoricalData fd = fd ∧
    ((GetHistoricalData tr now fd).2).map FunctionData.Epoch =
      (List.range (windowCount fd.Epoch now)).map
        (fun (n : Nat) => fd.Epoch + (n : Int) * epochIncrement24h) := by
  refine ⟨rfl, ?_⟩
  simp [GetHistoricalData, histLoop_calls, List.map_map, Function.comp_def]

/-- Claim C9, counterexample: over a two-window run the loop's cursor reaches
86400000 (the second fetch is built from it), yet after the call the caller's
FunctionData still has Epoch 0 — it is left unchanged, not advanced. -/
theorem getHistoricalData_caller_not_mutated_cex :
    callerFunctionDataAfterGetHistoricalData NewFunctionData = NewFunctionData ∧
    (callerFunctionDataAfterGetHistoricalData NewFunctionData).Epoch = 0 ∧
    (GetHistoricalData okTransport 86400000 NewFunctionData).2.map FunctionData.Epoch =
      [0, 86400000] := by
  refine ⟨rfl, rfl, ?_⟩
  simp only [GetHistoricalData, histLoop_eq]
  decide

/-- Claim C10: any string containing the digit pattern d4-d2-d2 as a substring
passes YearMonthDay.verify (the regular-expression search is unanchored) and
ConvertTimeToEpoch therefore proceeds past the shape check to the calendar
parse step instead of dying fatally. -/
theorem verify_unanchored_accepts_substring (s : String)
    (h : containsYmd s.data = true) :
    YearMonthDay.verify s = (true, none) ∧
    ConvertTimeToEpoch s ≠ ConvertOutcome.fatal := by
  constructor
  · simp [YearMonthDay.verify, h]
  · simp only [ConvertTimeToEpoch, YearMonthDay.verify, h, if_true, CheckReturn]
    cases parseDateOnly s <;> simp

/-- Claim C10, witness: "x2023-11-15y" has extra leading and trailing
characters yet contains the pattern, passes shape validation and is not
rejected fatally. -/
theorem verify_unanchored_accepts_substring_witness :
    containsYmd ("x2023-11-15y").data = true ∧
    (YearMonthDay.verify "x2023-11-15y" = (true, none) ∧
     ConvertTimeToEpoch "x2023-11-15y" ≠ ConvertOutcome.fatal) :=
  ⟨by decide, verify_unanchored_accepts_substring "x2023-11-15y" (by decide)⟩

end Awn
